import Mathlib

/-!
Verification of the autonomous Twitch-monitoring core (pattern analyzer,
decision engine, feedback recorder, monitor) as a shallow embedding of the
TypeScript sources.

Modelling conventions, applied uniformly:
* `Date` values are milliseconds since epoch, modelled as `Int`; the ambient
  wall-clock (`new Date()`, `Date.now()`) is passed explicitly as a `now`
  parameter.
* JavaScript numbers are modelled as `ℚ`; every JS division `a / b` is
  embedded as `Rat.divInt a b`, which denotes the same rational.
* The injected language-model function (`aiAnalyze`) is an arbitrary function
  from the prompt string to an `OracleAnswer`; the answer already carries the
  outcome of `JSON.parse` on the textual response (a throw/rejection, an
  unparseable response, a parsed array, or a parsed object), since every claim
  quantifies over all oracle behaviours.  Prompt-building functions keep the
  data interpolated into the template (tool menu, pattern fields, …) but
  abbreviate the fixed English template text, which no claim depends on.
* In-place mutation of the recorder's `recentFeedback` array, the decision
  engine's cooldown `Map` and the analyzer's tracking state is modelled by
  explicit state passing; `fs.appendFile`-style persistence is modelled as an
  append-only list of entry snapshots.
-/

/-! ## Data model (autonomous-types.ts) -/

/-- A chat message (`ChatMessage`). -/
structure ChatMessage where
  username : String
  content : String
  timestamp : Int
deriving DecidableEq

/-- Metadata attached to an AI-generated pattern (the `metadata` record built
in `convertToPatterns`). -/
structure PatternMetadata where
  reason : Option String
  recommendedAction : Option String
  suggestedResponse : Option String
  aiGenerated : Bool
deriving DecidableEq

/-- A detected chat pattern (`ChatPattern`).  The `type` field keeps the
source's string representation ("spam", "toxicity", "question", …). -/
structure ChatPattern where
  type : String
  severity : ℚ
  confidence : ℚ
  users : List String
  messages : List String
  timestamp : Int
  metadata : Option PatternMetadata
deriving DecidableEq

/-- A JSON parameter value (string or number), for `Record<string, any>`
parameter maps. -/
inductive ParamValue where
  | str (s : String)
  | num (q : ℚ)
deriving DecidableEq

/-- A parameter map, in JS property-insertion order. -/
abbrev Params := List (String × ParamValue)

/-- A concrete proposed action (`ActionDecision`). -/
structure ActionDecision where
  action : String
  parameters : Params
  reason : String
  confidence : ℚ
  patterns : List ChatPattern
  timestamp : Int
deriving DecidableEq

/-- User feedback attached to a feedback entry (`FeedbackEntry.userFeedback`).
The `source` field keeps the source's string union ("chat" | "manual" |
"streamer"). -/
structure UserFeedback where
  rating : ℕ
  comment : Option String
  source : String
deriving DecidableEq

/-- An observed outcome attached to a feedback entry
(`FeedbackEntry.outcome`). -/
structure ActionOutcome where
  effective : Bool
  chatResponse : Option String
  sideEffects : Option (List String)
deriving DecidableEq

/-- The durable record linking an executed decision with later feedback
(`FeedbackEntry`). -/
structure FeedbackEntry where
  timestamp : Int
  actionTaken : ActionDecision
  userFeedback : Option UserFeedback
  outcome : Option ActionOutcome
deriving DecidableEq

/-- The configuration gates consulted by the decision engine and fallback
rules (`AutonomousConfig`); numeric knobs that no modelled code path reads
(thresholds, durations, response pools, poll triggers) are elided. -/
structure AutonomousConfig where
  enabled : Bool
  spamDetectionEnabled : Bool
  spamDetectionAction : String
  toxicityDetectionEnabled : Bool
  toxicityDetectionAction : String
  chatEngagementEnabled : Bool
  pollAutomationEnabled : Bool
deriving DecidableEq

/-! ## Feedback recorder (feedback-recorder.ts)

The recorder's state is its in-memory `recentFeedback` array together with an
append-only persistence log of entry snapshots (`saveFeedbackEntry` /
`updateFeedbackEntry` only ever `appendFile`).  The markdown rendering of a
snapshot and the separate per-day action/user-feedback log files carry no
information a claim depends on and are elided from the log model. -/

/-- JS truthiness test used for `Math.abs(e.timestamp.getTime() -
actionTimestamp.getTime()) < 60000`: the entry lies strictly within one
minute of the target timestamp. -/
def withinOneMinute (ts : Int) (e : FeedbackEntry) : Bool :=
  (e.timestamp - ts).natAbs < 60000

/-- Core of `recentFeedback.find(...)` followed by in-place mutation of the
found entry: update the first entry satisfying `p` with `f`, returning the
updated entry and the updated list, or `none` when no entry matches. -/
def updateFirstEntry (p : FeedbackEntry → Bool) (f : FeedbackEntry → FeedbackEntry) :
    List FeedbackEntry → Option (FeedbackEntry × List FeedbackEntry)
  | [] => none
  | e :: rest =>
    if p e then
      some (f e, f e :: rest)
    else
      (updateFirstEntry p f rest).map (fun r => (r.1, e :: r.2))

/-- `FeedbackRecorder.recordAction`: push a fresh entry (feedback and outcome
added later) onto `recentFeedback` and append a snapshot to the log. -/
def recordAction (store log : List FeedbackEntry) (decision : ActionDecision) :
    List FeedbackEntry × List FeedbackEntry :=
  let entry : FeedbackEntry :=
    { timestamp := decision.timestamp, actionTaken := decision,
      userFeedback := none, outcome := none }
  (store ++ [entry], log ++ [entry])

/-- `FeedbackRecorder.addUserFeedback`: find the first entry of
`recentFeedback` within one minute of `actionTimestamp`, set its
`userFeedback` field, append the updated snapshot to the log and return
`true`; with no match return `false` and touch nothing.  Result:
`(matched?, recentFeedback, log)`. -/
def addUserFeedback (store log : List FeedbackEntry) (actionTimestamp : Int)
    (rating : ℕ) (comment : Option String) (source : String) :
    Bool × List FeedbackEntry × List FeedbackEntry :=
  match updateFirstEntry (withinOneMinute actionTimestamp)
      (fun e => { e with userFeedback := some ⟨rating, comment, source⟩ }) store with
  | none => (false, store, log)
  | some (e', store') => (true, store', log ++ [e'])

/-- `FeedbackRecorder.recordOutcome`: same matching as `addUserFeedback` but
setting the `outcome` field. -/
def recordOutcome (store log : List FeedbackEntry) (actionTimestamp : Int)
    (effective : Bool) (chatResponse : Option String)
    (sideEffects : Option (List String)) :
    Bool × List FeedbackEntry × List FeedbackEntry :=
  match updateFirstEntry (withinOneMinute actionTimestamp)
      (fun e => { e with outcome := some ⟨effective, chatResponse, sideEffects⟩ }) store with
  | none => (false, store, log)
  | some (e', store') => (true, store', log ++ [e'])

/-- `FeedbackRecorder.getRecentFeedback`: entries whose timestamp is at or
after `now - hours*3600000`. -/
def getRecentFeedback (store : List FeedbackEntry) (now : Int) (hours : Int) :
    List FeedbackEntry :=
  store.filter (fun e => now - hours * 3600000 ≤ e.timestamp)

/-- The success test applied inside `calculateSuccessMetrics` to an entry that
carries user feedback: `e.userFeedback!.rating >= 3 || e.outcome?.effective`
(an absent outcome is falsy). -/
def ratedOrEffective (e : FeedbackEntry) : Bool :=
  (match e.userFeedback with
   | some f => decide (3 ≤ f.rating)
   | none => false) ||
  (match e.outcome with
   | some o => o.effective
   | none => false)

/-- The fields of the `calculateSuccessMetrics` result that the modelled code
paths read; the two ranked action lists (built from entries with ≥2 feedback
samples) are elided, as no claim depends on them. -/
structure SuccessMetrics where
  totalActions : ℕ
  successRate : ℚ
  averageRating : ℚ
deriving DecidableEq

/-- `FeedbackRecorder.calculateSuccessMetrics`: over the trailing 168-hour
window, `successRate` divides the number of entries that both carry
`userFeedback` and pass `ratedOrEffective` by `max(1, totalEntries)`. -/
def calculateSuccessMetrics (store : List FeedbackEntry) (now : Int) :
    SuccessMetrics :=
  let recentEntries := getRecentFeedback store now 168
  let actionsWithFeedback := recentEntries.filter (fun e => e.userFeedback.isSome)
  let totalActions := recentEntries.length
  let successRate :=
    Rat.divInt (actionsWithFeedback.filter ratedOrEffective).length
      (max 1 totalActions : ℕ)
  let averageRating :=
    if 0 < actionsWithFeedback.length then
      Rat.divInt
        (actionsWithFeedback.foldl
          (fun sum e => sum + (match e.userFeedback with
            | some f => (f.rating : Int)
            | none => 0)) 0)
        (actionsWithFeedback.length : ℕ)
    else 0
  ⟨totalActions, successRate, averageRating⟩

/-! ### Learning insights (analyzeFeedbackPatterns / generateRecommendations)

JS `Map` objects are modelled as association lists in key-insertion order:
setting an existing key updates it in place, a new key is appended. -/

/-- Update an association list at `k` with `f upd`, starting from `dflt` when
the key is absent (`map.get(k) || dflt` followed by `map.set(k, ...)`). -/
def setWith (k : String) (dflt : α) (upd : α → α) :
    List (String × α) → List (String × α)
  | [] => [(k, upd dflt)]
  | kv :: rest =>
    if kv.1 = k then (k, upd kv.2) :: rest
    else kv :: setWith k dflt upd rest

/-- `Math.floor(pattern.severity / 2)`, written without `ℚ` division so that
it evaluates by kernel reduction: for `q = num/den`, `q / 2 = num / (2*den)`. -/
def floorHalf (q : ℚ) : Int := (Rat.divInt q.num (2 * (q.den : Int))).floor

/-- The `patternSuccessRates` bucket key
`` `${pattern.type}-${Math.floor(pattern.severity / 2)}` ``. -/
def patternKey (p : ChatPattern) : String :=
  p.type ++ "-" ++ toString (floorHalf p.severity)

/-- The success test used in the pattern-bucket loop of
`analyzeFeedbackPatterns`: `entry.userFeedback?.rating >= 3 ||
entry.outcome?.effective` (absent fields are falsy and do not qualify). -/
def feedbackSuccess (e : FeedbackEntry) : Bool :=
  (match e.userFeedback with
   | some f => decide (3 ≤ f.rating)
   | none => false) ||
  (match e.outcome with
   | some o => o.effective
   | none => false)

/-- Per-action aggregate produced by `analyzeFeedbackPatterns` before
projection: the collected ratings and effectiveness flags. -/
structure ActionRawPerf where
  ratings : List ℕ
  effectiveness : List Bool
deriving DecidableEq

/-- Per-action projection `{averageRating, effectivenessRate, sampleSize}`. -/
structure ActionPerf where
  averageRating : ℚ
  effectivenessRate : ℚ
  sampleSize : ℕ
deriving DecidableEq

/-- The `insights` object returned by `analyzeFeedbackPatterns`. -/
structure LearningInsights where
  patternSuccessRates : List (String × (ℕ × ℕ))
  actionPerformance : List (String × ActionPerf)
  totalSamples : ℕ
deriving DecidableEq

/-- One entry's contribution to the `patternSuccessRates` map: bump
`(total, successful)` for the bucket of every pattern behind the action. -/
def bumpPatternRates (e : FeedbackEntry)
    (m : List (String × (ℕ × ℕ))) : List (String × (ℕ × ℕ)) :=
  e.actionTaken.patterns.foldl
    (fun m p =>
      setWith (patternKey p) (0, 0)
        (fun st => (st.1 + 1, if feedbackSuccess e then st.2 + 1 else st.2)) m)
    m

/-- One entry's contribution to the raw `actionPerformance` map. -/
def bumpActionPerf (e : FeedbackEntry)
    (m : List (String × ActionRawPerf)) : List (String × ActionRawPerf) :=
  setWith e.actionTaken.action ⟨[], []⟩
    (fun d =>
      let d := match e.userFeedback with
        | some f => { d with ratings := d.ratings ++ [f.rating] }
        | none => d
      match e.outcome with
      | some o => { d with effectiveness := d.effectiveness ++ [o.effective] }
      | none => d)
    m

/-- Projection of a raw per-action aggregate to
`{averageRating, effectivenessRate, sampleSize}` (averages of empty lists
are 0). -/
def projectPerf (d : ActionRawPerf) : ActionPerf :=
  { averageRating :=
      if 0 < d.ratings.length then
        Rat.divInt (d.ratings.foldl (fun a b => a + (b : Int)) 0) (d.ratings.length : ℕ)
      else 0,
    effectivenessRate :=
      if 0 < d.effectiveness.length then
        Rat.divInt ((d.effectiveness.filter id).length : Int) (d.effectiveness.length : ℕ)
      else 0,
    sampleSize := max d.ratings.length d.effectiveness.length }

/-- `FeedbackRecorder.analyzeFeedbackPatterns`: aggregate the trailing-week
window into pattern-bucket success counts, per-action performance and the
total sample count. -/
def analyzeFeedbackPatterns (store : List FeedbackEntry) (now : Int) :
    LearningInsights :=
  let recentEntries := getRecentFeedback store now 168
  let patternRates := recentEntries.foldl (fun m e => bumpPatternRates e m) []
  let rawPerf := recentEntries.foldl (fun m e => bumpActionPerf e m) []
  { patternSuccessRates := patternRates,
    actionPerformance := rawPerf.map (fun kv => (kv.1, projectPerf kv.2)),
    totalSamples := recentEntries.length }

/-- A recommendation emitted by `generateRecommendations`; each constructor
carries the data interpolated into the corresponding markdown line (the fixed
text around it is elided). -/
inductive Recommendation where
  | reduceFrequency (action : String) (averageRating : ℚ)
  | reviewParameters (action : String) (effectivenessRate : ℚ)
  | adjustThresholds (patternKey : String) (successRate : ℚ)
  | insufficientData (totalSamples : ℕ)
  | allGood
deriving DecidableEq

/-- The action-performance loop of `generateRecommendations`: skip actions
with fewer than 5 samples, flag a low average rating and separately a low
effectiveness rate. -/
def actionRecommendations (insights : LearningInsights) : List Recommendation :=
  insights.actionPerformance.flatMap (fun kv =>
    if kv.2.sampleSize < 5 then []
    else
      (if kv.2.averageRating < Rat.divInt 5 2 then
        [Recommendation.reduceFrequency kv.1 kv.2.averageRating] else []) ++
      (if kv.2.effectivenessRate < Rat.divInt 3 10 then
        [Recommendation.reviewParameters kv.1 kv.2.effectivenessRate] else []))

/-- The pattern-success loop of `generateRecommendations`: skip buckets with
fewer than 3 samples, flag a success rate below 0.4. -/
def patternRecommendations (insights : LearningInsights) : List Recommendation :=
  insights.patternSuccessRates.flatMap (fun kv =>
    if kv.2.1 < 3 then []
    else
      if Rat.divInt (kv.2.2 : Int) (kv.2.1 : Int) < Rat.divInt 2 5 then
        [Recommendation.adjustThresholds kv.1 (Rat.divInt (kv.2.2 : Int) (kv.2.1 : Int))]
      else [])

/-- The final sample-size check of `generateRecommendations`. -/
def sampleSizeRecommendations (insights : LearningInsights) : List Recommendation :=
  if insights.totalSamples < 10 then
    [Recommendation.insufficientData insights.totalSamples]
  else []

/-- `FeedbackRecorder.generateRecommendations`: flag low-rated and
low-effectiveness actions with at least 5 samples, low-success pattern
buckets with at least 3 samples, and insufficient data below 10 total
samples; with nothing to flag, report that performance looks good. -/
def generateRecommendations (insights : LearningInsights) : List Recommendation :=
  if (actionRecommendations insights ++ patternRecommendations insights ++
      sampleSizeRecommendations insights).isEmpty then
    [Recommendation.allGood]
  else
    actionRecommendations insights ++ patternRecommendations insights ++
      sampleSizeRecommendations insights

/-- `FeedbackRecorder.generateLearningInsights`, reduced to the recommendation
list it renders (the surrounding markdown report is elided). -/
def generateLearningInsights (store : List FeedbackEntry) (now : Int) :
    List Recommendation :=
  generateRecommendations (analyzeFeedbackPatterns store now)

/-! ## Decision engine (decision-engine.ts) -/

/-- An MCP tool descriptor (`MCPTool`); the textual description and parameter
schema only feed the prompt text and are elided. `cooldown` is in minutes. -/
structure MCPTool where
  name : String
  riskLevel : String
  cooldown : Option Int
deriving DecidableEq

/-- The `AVAILABLE_MCP_TOOLS` table. -/
def AVAILABLE_MCP_TOOLS : List MCPTool :=
  [⟨"sendMessageToChat", "low", none⟩,
   ⟨"timeoutUser", "high", some 1⟩,
   ⟨"banUser", "high", some 5⟩,
   ⟨"createTwitchPoll", "medium", some 15⟩,
   ⟨"createTwitchPrediction", "medium", some 20⟩,
   ⟨"createTwitchClip", "low", some 5⟩,
   ⟨"updateStreamTitle", "medium", some 30⟩,
   ⟨"updateStreamCategory", "medium", some 30⟩]

/-- One element of the JSON array the decision prompt asks the oracle for;
every field may be absent in the parsed response. -/
structure RawDecision where
  action : Option String
  parameters : Option Params
  reason : Option String
  confidence : Option ℚ
  targetPattern : Option String
deriving DecidableEq

/-- One element of the JSON arrays the three per-message analysis prompts ask
the oracle for (toxicity / spam / engagement); `score` stands for the
site-specific score field (`toxicityScore`, `spamScore`, `engagementScore`)
and any field may be absent in the parsed response. -/
structure ScoreResult where
  messageIndex : Option Int
  score : Option ℚ
  reason : Option String
  action : Option String
  suggestedResponse : Option String
  username : Option String
deriving DecidableEq

/-- The parsed response to the sentiment prompt (the `reasoning` and
`keyIndicators` fields are never read and are elided). -/
structure SentimentResult where
  overallSentiment : ℚ
deriving DecidableEq

/-- The parsed response to the activity prompt (the `description` field is
never read and is elided).  An empty `recommendations` array is distinct from
an absent one (JS truthiness of `[]` is true). -/
structure ActivityResult where
  activityLevel : ℚ
  recommendations : Option (List String)
deriving DecidableEq

/-- The outcome of one `aiAnalyze` call, combined with the `JSON.parse` the
caller immediately applies to the returned text: the call threw / the promise
rejected (`err`), the text was not JSON (`noparse`), or it parsed into the
array / object shape some call site expects.  Each oracle invocation happens
at exactly one call site; a constructor for a different site's shape stands
for a parse into a shape the receiving site cannot read and behaves as
documented at that site (skipped elements for arrays of the wrong element
shape, the throwing `for...of` for a non-array at an array site, the
parse-failure default for an object missing the fields an object site
reads). -/
inductive OracleAnswer where
  | err
  | noparse
  | arr (ds : List RawDecision)
  | obj (p : Params)
  | scoreArr (rs : List ScoreResult)
  | sentimentObj (s : SentimentResult)
  | activityObj (a : ActivityResult)
deriving DecidableEq

/-- The injected language-model function, as seen through `JSON.parse`. -/
abbrev Oracle := String → OracleAnswer

/-- The cooldown ledger `recentActions : Map<string, Date>`, as an association
list in insertion order. -/
abbrev CooldownMap := List (String × Int)

/-- `Map.get`: the stored last-invocation time for a tool, if any. -/
def lookupCooldown : CooldownMap → String → Option Int
  | [], _ => none
  | kv :: rest, k => if kv.1 = k then some kv.2 else lookupCooldown rest k

/-- `Map.set`: replace the value in place, or append a new key. -/
def setCooldown : CooldownMap → String → Int → CooldownMap
  | [], k, v => [(k, v)]
  | kv :: rest, k, v =>
    if kv.1 = k then (k, v) :: rest else kv :: setCooldown rest k v

/-- `AIDecisionEngine.getAvailableTools`: drop tools still within their
cooldown window, then apply the configuration gates. -/
def getAvailableTools (config : AutonomousConfig) (recentActions : CooldownMap)
    (now : Int) : List MCPTool :=
  (AVAILABLE_MCP_TOOLS.filter (fun tool =>
    match lookupCooldown recentActions tool.name, tool.cooldown with
    | some lastUsed, some cd => decide (cd * 60 * 1000 ≤ now - lastUsed)
    | _, _ => true)).filter (fun tool =>
    if tool.riskLevel = "high" && !config.enabled then false
    else if tool.name = "timeoutUser" || tool.name = "banUser" then
      config.spamDetectionEnabled || config.toxicityDetectionEnabled
    else if tool.name = "createTwitchPoll" then
      config.pollAutomationEnabled
    else if tool.name = "sendMessageToChat" then
      config.chatEngagementEnabled
    else true)

/-- `AIDecisionEngine.updateCooldowns`: stamp `now` on every proposed action
name. -/
def updateCooldowns (recentActions : CooldownMap) (decisions : List ActionDecision)
    (now : Int) : CooldownMap :=
  decisions.foldl (fun m d => setCooldown m d.action now) recentActions

/-- The analysis result consumed by the decision engine and produced by the
pattern analyzer (`ChatAnalysisResult`). -/
structure ChatAnalysisResult where
  patterns : List ChatPattern
  overallSentiment : ℚ
  activityLevel : ℚ
  needsAttention : Bool
  recommendations : List String
deriving DecidableEq

/-- JS `a || b` on an optional string: `b` when `a` is absent or empty. -/
def jsOrString (a : Option String) (b : String) : String :=
  match a with
  | some s => if s = "" then b else s
  | none => b

/-- JS template interpolation of a possibly-absent string
(undefined renders as the text "undefined"). -/
def jsTemplate (a : Option String) : String := a.getD "undefined"

/-- The `DECISION_PROMPTS.actionSelection` template: the fixed English text is
abbreviated, the interpolated analysis fields, pattern dump, tool menu and
configuration flags are kept. -/
def actionSelectionPrompt (analysis : ChatAnalysisResult)
    (availableTools : List MCPTool) (config : AutonomousConfig) : String :=
  "actionSelection sentiment=" ++ toString analysis.overallSentiment ++
  " activity=" ++ toString analysis.activityLevel ++
  " attention=" ++ toString analysis.needsAttention ++
  " recommendations=" ++ String.intercalate ", " analysis.recommendations ++
  " patterns=" ++ String.intercalate "\n"
    (analysis.patterns.map (fun p =>
      p.type ++ " " ++ toString p.severity ++ "/10 conf " ++ toString p.confidence ++
      " users " ++ String.intercalate ", " p.users ++
      " messages " ++ String.intercalate " | " p.messages)) ++
  " tools=" ++ String.intercalate "\n"
    (availableTools.map (fun tool => tool.name ++ " risk " ++ tool.riskLevel)) ++
  " config=" ++ toString config.spamDetectionEnabled ++ config.spamDetectionAction ++
  toString config.toxicityDetectionEnabled ++ config.toxicityDetectionAction ++
  toString config.chatEngagementEnabled ++ toString config.pollAutomationEnabled

/-- The `DECISION_PROMPTS.parameterGeneration` template, likewise keeping the
interpolated action, pattern fields and context summary. -/
def parameterGenerationPrompt (action : String) (pattern : ChatPattern)
    (context : String) : String :=
  "parameterGeneration " ++ action ++ " type=" ++ pattern.type ++
  " severity=" ++ toString pattern.severity ++
  " users=" ++ String.intercalate ", " pattern.users ++
  " messages=" ++ String.intercalate " | " pattern.messages ++
  " context=" ++ context

/-- `AIDecisionEngine.getContextForPattern`. -/
def getContextForPattern (pattern : ChatPattern) (analysis : ChatAnalysisResult) :
    String :=
  let contexts :=
    ["Overall chat sentiment: " ++
      (if 0 < analysis.overallSentiment then "positive"
       else if analysis.overallSentiment < 0 then "negative" else "neutral"),
     "Activity level: " ++ toString analysis.activityLevel ++ "/10",
     "Pattern confidence: " ++ toString pattern.confidence,
     "Severity: " ++ toString pattern.severity ++ "/10"]
  let contexts := contexts ++
    (match pattern.metadata with
     | some md =>
       if md.aiGenerated then ["AI detected: " ++ jsTemplate md.reason] else []
     | none => [])
  String.intercalate ", " contexts

/-- `AIDecisionEngine.getFallbackParameters`. -/
def getFallbackParameters (action : String) (pattern : ChatPattern) : Params :=
  let user := jsOrString pattern.users.head? "unknown"
  if action = "timeoutUser" then
    [("usernameOrDescriptor", .str user),
     ("reason", .str (pattern.type ++ " behavior detected"))]
  else if action = "banUser" then
    [("usernameOrDescriptor", .str user),
     ("reason", .str ("Severe " ++ pattern.type ++ " violation"))]
  else if action = "sendMessageToChat" then
    if pattern.type = "question" then
      [("message", .str "Thanks for the question! Let me think about that...")]
    else if pattern.type = "quiet" then
      [("message", .str "How's everyone doing? What would you like to see next?")]
    else
      [("message", .str "Thanks for being part of the chat!")]
  else if action = "createTwitchPoll" then
    [("title", .str "What should we do next?"),
     ("choices", .str "Option A, Option B, Option C"),
     ("duration", .num 300)]
  else []

/-- `AIDecisionEngine.needsParameterGeneration`. -/
def needsParameterGeneration (action : String) : Bool :=
  action = "sendMessageToChat" || action = "createTwitchPoll" ||
  action = "createTwitchPrediction" || action = "updateStreamTitle"

/-- `AIDecisionEngine.generateParameters`: ask the oracle for a parameter
object; on a throw or a parse failure fall back to the canned parameters. -/
def generateParameters (oracle : Oracle) (action : String) (pattern : ChatPattern)
    (context : String) : Params :=
  match oracle (parameterGenerationPrompt action pattern context) with
  | .obj p => p
  | _ => getFallbackParameters action pattern

/-- JS object spread `{...a, ...b}`: keys of `b` override values of `a` in
place, keys new in `b` are appended. -/
def spreadMerge (a b : Params) : Params :=
  a.map (fun kv =>
    match b.find? (fun kv2 => kv2.1 = kv.1) with
    | some kv2 => kv2
    | none => kv) ++
  b.filter (fun kv2 => !a.any (fun kv => kv.1 = kv2.1))

/-- JS falsiness of an optional string (`!decision.action`): absent or
empty. -/
def jsFalsyString (a : Option String) : Bool :=
  match a with
  | some s => s = ""
  | none => true

/-- The per-raw-decision loop body of `AIDecisionEngine.getAIDecisions`:
skip proposals missing `action` or `reason`; resolve `targetPattern` by type
and skip proposals whose referenced pattern cannot be found; for actions that
need situational parameters, merge oracle-synthesised (or canned) parameters
over the proposed ones; default a falsy confidence to 0.7. -/
def processRawDecisions (oracle : Oracle) (analysis : ChatAnalysisResult)
    (now : Int) : List RawDecision → List ActionDecision
  | [] => []
  | d :: rest =>
    if jsFalsyString d.action || jsFalsyString d.reason then
      processRawDecisions oracle analysis now rest
    else
      let targetPattern := analysis.patterns.find? (fun p =>
        d.targetPattern == some p.type ||
        (d.targetPattern == some "question" && p.type == "question") ||
        (d.targetPattern == some "toxicity" && p.type == "toxicity") ||
        (d.targetPattern == some "spam" && p.type == "spam"))
      if targetPattern.isNone && !jsFalsyString d.targetPattern then
        processRawDecisions oracle analysis now rest
      else
        let actionName := (d.action).getD ""
        let parameters := (d.parameters).getD []
        let parameters :=
          match targetPattern with
          | some tp =>
            if needsParameterGeneration actionName then
              spreadMerge parameters
                (generateParameters oracle actionName tp
                  (getContextForPattern tp analysis))
            else parameters
          | none => parameters
        { action := actionName,
          parameters := parameters,
          reason := (d.reason).getD "",
          confidence :=
            match d.confidence with
            | some c => if c = 0 then Rat.divInt 7 10 else c
            | none => Rat.divInt 7 10,
          patterns := match targetPattern with | some tp => [tp] | none => [],
          timestamp := now } ::
        processRawDecisions oracle analysis now rest

/-- `AIDecisionEngine.getAIDecisions`: send the decision prompt; a thrown
oracle call propagates (`Except.error`), a non-JSON or non-array response
yields no decisions, a parsed array is processed element-wise. -/
def getAIDecisions (oracle : Oracle) (config : AutonomousConfig)
    (analysis : ChatAnalysisResult) (availableTools : List MCPTool) (now : Int) :
    Except Unit (List ActionDecision) :=
  match oracle (actionSelectionPrompt analysis availableTools config) with
  | .err => .error ()
  | .noparse => .ok []
  | .obj _ => .ok []
  | .sentimentObj _ => .ok []
  | .activityObj _ => .ok []
  | .arr rawDecisions => .ok (processRawDecisions oracle analysis now rawDecisions)
  | .scoreArr rs =>
    .ok (processRawDecisions oracle analysis now
      (rs.map (fun _ => ⟨none, none, none, none, none⟩)))

/-- `AIDecisionEngine.fallbackDecisions`: deterministic rules applied per
pattern, with no oracle involvement (the function takes no oracle argument):
confident high-severity toxicity yields the configured ban/timeout, confident
spam a timeout. -/
def fallbackDecisions (config : AutonomousConfig) (now : Int) :
    List ChatPattern → List ActionDecision
  | [] => []
  | p :: rest =>
    if p.confidence < Rat.divInt 7 10 then fallbackDecisions config now rest
    else if p.type = "toxicity" && decide (7 ≤ p.severity) &&
        config.toxicityDetectionEnabled then
      { action := if config.toxicityDetectionAction = "ban" then "banUser"
                  else "timeoutUser",
        parameters := [("usernameOrDescriptor", .str (jsOrString p.users.head? "unknown")),
                       ("reason", .str "Toxic behavior detected")],
        reason := "Fallback action for high toxicity (" ++ toString p.severity ++ "/10)",
        confidence := Rat.divInt 3 5,
        patterns := [p],
        timestamp := now } :: fallbackDecisions config now rest
    else if p.type = "spam" && decide (6 ≤ p.severity) &&
        config.spamDetectionEnabled then
      { action := "timeoutUser",
        parameters := [("usernameOrDescriptor", .str (jsOrString p.users.head? "unknown")),
                       ("reason", .str "Spam detected")],
        reason := "Fallback action for spam (" ++ toString p.severity ++ "/10)",
        confidence := Rat.divInt 3 5,
        patterns := [p],
        timestamp := now } :: fallbackDecisions config now rest
    else fallbackDecisions config now rest

/-- `AIDecisionEngine.makeDecisions`: with every tool cooled down or gated
away, return nothing without consulting the oracle; otherwise ask the oracle
and stamp the cooldown ledger for every proposed action; if the oracle call
threw, fall back to the deterministic rules (which leave the ledger
untouched).  Result: `(decisions, updated cooldown ledger)`. -/
def makeDecisions (oracle : Oracle) (config : AutonomousConfig)
    (recentActions : CooldownMap) (now : Int) (analysis : ChatAnalysisResult) :
    List ActionDecision × CooldownMap :=
  let availableTools := getAvailableTools config recentActions now
  if availableTools.isEmpty then ([], recentActions)
  else
    match getAIDecisions oracle config analysis availableTools now with
    | .error _ => (fallbackDecisions config now analysis.patterns, recentActions)
    | .ok decisions => (decisions, updateCooldowns recentActions decisions now)

/-! ## Pattern analyzer (pattern-analyzer.ts) -/

/-- The analyzer's mutable state: the 50-pattern trend window and the
per-user message-timestamp tracking map (`userMessageCounts`; the `count`
field of the source's record is written but never read and is elided). -/
structure AnalyzerState where
  recentPatterns : List ChatPattern
  userMessageCounts : List (String × List Int)
deriving DecidableEq

/-- `AIPatternAnalyzer.cleanupOldData`: prune per-user timestamps to the
trailing 10 minutes, dropping users left with none, and prune the trend
window likewise. -/
def cleanupOldData (st : AnalyzerState) (now : Int) : AnalyzerState :=
  { userMessageCounts :=
      (st.userMessageCounts.map (fun kv =>
        (kv.1, kv.2.filter (fun t => now - 10 * 60 * 1000 ≤ t)))).filter
        (fun kv => !kv.2.isEmpty),
    recentPatterns :=
      st.recentPatterns.filter (fun p => now - p.timestamp < 10 * 60 * 1000) }

/-- `AIPatternAnalyzer.updateUserTracking`: push each message's timestamp
onto its user's history. -/
def updateUserTracking (st : AnalyzerState) (messages : List ChatMessage) :
    AnalyzerState :=
  { st with
    userMessageCounts :=
      messages.foldl
        (fun m msg => setWith msg.username [] (fun ts => ts ++ [msg.timestamp]) m)
        st.userMessageCounts }

/-- `AIPatternAnalyzer.getUserMessageCounts`: per user, the number of
messages in the trailing minute, omitting users with none. -/
def getUserMessageCounts (st : AnalyzerState) (now : Int) :
    List (String × ℕ) :=
  (st.userMessageCounts.map (fun kv =>
    (kv.1, (kv.2.filter (fun t => now - 60000 ≤ t)).length))).filter
    (fun kv => 0 < kv.2)

/-- The five `ANALYSIS_PROMPTS` templates (fixed English text abbreviated,
interpolated message batch and auxiliary data kept). -/
def toxicityPrompt (messages : List String) : String :=
  "toxicity " ++ String.intercalate "\n" messages

/-- Spam prompt; includes the per-user rate map. -/
def spamPrompt (messages : List String) (userCounts : List (String × ℕ)) : String :=
  "spam " ++ String.intercalate "\n" messages ++ " counts " ++
  String.intercalate ";" (userCounts.map (fun kv => kv.1 ++ "=" ++ toString kv.2))

/-- Engagement prompt. -/
def engagementPrompt (messages : List String) : String :=
  "engagement " ++ String.intercalate "\n" messages

/-- Sentiment prompt. -/
def sentimentPrompt (messages : List String) : String :=
  "sentiment " ++ String.intercalate "\n" messages

/-- Activity prompt. -/
def activityPrompt (messages : List String) (timeSpan : String)
    (uniqueUsers : ℕ) : String :=
  "activity " ++ timeSpan ++ " users " ++ toString uniqueUsers ++ " " ++
  String.intercalate "\n" messages

/-- `AIPatternAnalyzer.analyzeToxicity`: a thrown oracle call propagates; a
non-JSON response degrades to no results; a parsed array is returned (an
array of elements without the expected fields reads as elements whose fields
are all absent); a parsed non-array is returned as-is and makes the later
`for...of` in `convertToPatterns` throw, which `.ok none` records. -/
def analyzeToxicity (oracle : Oracle) (messages : List String) :
    Except Unit (Option (List ScoreResult)) :=
  match oracle (toxicityPrompt messages) with
  | .err => .error ()
  | .scoreArr rs => .ok (some rs)
  | .arr ds => .ok (some (ds.map (fun _ => ⟨none, none, none, none, none, none⟩)))
  | .noparse => .ok (some [])
  | _ => .ok none

/-- `AIPatternAnalyzer.analyzeSpam` (same reading as `analyzeToxicity`). -/
def analyzeSpam (oracle : Oracle) (messages : List String)
    (userCounts : List (String × ℕ)) : Except Unit (Option (List ScoreResult)) :=
  match oracle (spamPrompt messages userCounts) with
  | .err => .error ()
  | .scoreArr rs => .ok (some rs)
  | .arr ds => .ok (some (ds.map (fun _ => ⟨none, none, none, none, none, none⟩)))
  | .noparse => .ok (some [])
  | _ => .ok none

/-- `AIPatternAnalyzer.analyzeEngagement` (same reading as
`analyzeToxicity`). -/
def analyzeEngagement (oracle : Oracle) (messages : List String) :
    Except Unit (Option (List ScoreResult)) :=
  match oracle (engagementPrompt messages) with
  | .err => .error ()
  | .scoreArr rs => .ok (some rs)
  | .arr ds => .ok (some (ds.map (fun _ => ⟨none, none, none, none, none, none⟩)))
  | .noparse => .ok (some [])
  | _ => .ok none

/-- `AIPatternAnalyzer.analyzeSentiment`: a thrown call propagates; a parse
failure yields the neutral default.  A parse into a shape without the
`overallSentiment` field would make that field `undefined` in the source; it
is approximated by the same neutral default (no modelled claim reaches this
case). -/
def analyzeSentiment (oracle : Oracle) (messages : List String) :
    Except Unit SentimentResult :=
  match oracle (sentimentPrompt messages) with
  | .err => .error ()
  | .sentimentObj s => .ok s
  | _ => .ok ⟨0⟩

/-- `AIPatternAnalyzer.analyzeActivity`: as `analyzeSentiment`, with the
moderate-activity default on parse failure. -/
def analyzeActivity (oracle : Oracle) (messages : List String)
    (timeSpan : String) (uniqueUsers : ℕ) : Except Unit ActivityResult :=
  match oracle (activityPrompt messages timeSpan uniqueUsers) with
  | .err => .error ()
  | .activityObj a => .ok a
  | _ => .ok ⟨5, some ["Monitor chat"]⟩

/-- One result object's contribution to `convertToPatterns`: with the
site-specific score present and at least `minScore`, and the 1-based
`messageIndex` in range, emit one pattern of the given type with the
site-fixed confidence. -/
def scoreResultPattern (messages : List ChatMessage) (now : Int) (minScore : ℚ)
    (ptype : String) (confidence : ℚ) (meta : ScoreResult → PatternMetadata)
    (r : ScoreResult) : List ChatPattern :=
  match r.score, r.messageIndex with
  | some sc, some mi =>
    if minScore ≤ sc then
      let messageIndex := mi - 1
      if 0 ≤ messageIndex ∧ messageIndex < messages.length then
        [{ type := ptype,
           severity := sc,
           confidence := confidence,
           users := [jsOrString r.username
             (jsOrString ((messages[messageIndex.toNat]?).map (fun m => m.username))
               "unknown")],
           messages := [jsOrString ((messages[messageIndex.toNat]?).map
             (fun m => m.content)) ""],
           timestamp := now,
           metadata := some (meta r) }]
      else []
    else []
  | _, _ => []

/-- `AIPatternAnalyzer.convertToPatterns`: toxicity results at score ≥ 4 with
confidence 0.9, then spam results at score ≥ 4 with confidence 0.8, then
engagement results at score ≥ 6 as "question" patterns with confidence
0.7. -/
def convertToPatterns (messages : List ChatMessage)
    (toxicityResults spamResults engagementResults : List ScoreResult)
    (now : Int) : List ChatPattern :=
  toxicityResults.flatMap
    (scoreResultPattern messages now 4 "toxicity" (Rat.divInt 9 10)
      (fun r => ⟨r.reason, r.action, none, true⟩)) ++
  spamResults.flatMap
    (scoreResultPattern messages now 4 "spam" (Rat.divInt 8 10)
      (fun r => ⟨r.reason, r.action, none, true⟩)) ++
  engagementResults.flatMap
    (scoreResultPattern messages now 6 "question" (Rat.divInt 7 10)
      (fun r => ⟨r.reason, none, r.suggestedResponse, true⟩))

/-- `AIPatternAnalyzer.determineAttentionNeeded`. -/
def determineAttentionNeeded (patterns : List ChatPattern) : Bool :=
  patterns.any (fun p =>
    (p.type == "spam" && decide (7 ≤ p.severity)) ||
    (p.type == "toxicity" && decide (6 ≤ p.severity)) ||
    decide (2 ≤ (patterns.filter (fun q => q.type == "spam")).length))

/-- The `Array.reduce` picking the highest-severity pattern (`prev.severity >
curr.severity ? prev : curr`). -/
def highestSeverity (h : ChatPattern) (t : List ChatPattern) : ChatPattern :=
  t.foldl (fun prev curr => if curr.severity < prev.severity then prev else curr) h

/-- `AIPatternAnalyzer.generateAIRecommendations`. -/
def generateAIRecommendations (patterns : List ChatPattern)
    (sentimentResult : SentimentResult) (activityResult : ActivityResult) :
    List String :=
  let spamPatterns := patterns.filter (fun p => p.type == "spam")
  let toxicPatterns := patterns.filter (fun p => p.type == "toxicity")
  let engagementPatterns := patterns.filter (fun p => p.type == "question")
  let recommendations :=
    (match toxicPatterns with
     | [] => []
     | h :: t =>
       let hi := highestSeverity h t
       ["🚨 " ++ jsOrString (hi.metadata.bind (fun m => m.recommendedAction)) "Moderate" ++
        " " ++ jsTemplate hi.users.head? ++ " - " ++
        jsTemplate (hi.metadata.bind (fun m => m.reason))]) ++
    (match spamPatterns with
     | [] => []
     | h :: t =>
       let hi := highestSeverity h t
       ["📵 " ++ jsOrString (hi.metadata.bind (fun m => m.recommendedAction))
          "Address spam from" ++
        " " ++ jsTemplate hi.users.head? ++ " - " ++
        jsTemplate (hi.metadata.bind (fun m => m.reason))]) ++
    (match engagementPatterns with
     | [] => []
     | best :: _ =>
       ["💬 " ++ jsOrString (best.metadata.bind (fun m => m.suggestedResponse))
          "Engage with viewer questions"]) ++
    (if sentimentResult.overallSentiment < Rat.divInt (-3) 10 then
      ["😞 Chat sentiment is negative - consider addressing concerns or changing topic"]
     else if Rat.divInt 1 2 < sentimentResult.overallSentiment then
      ["😊 Great positive energy in chat - good time for interaction!"]
     else []) ++
    (match activityResult.recommendations with
     | some recs => recs.map (fun rec => "📊 " ++ rec)
     | none => [])
  if recommendations.isEmpty then
    ["✅ Chat is healthy - no immediate action needed"]
  else recommendations

/-- `AIPatternAnalyzer.fallbackAnalysis`: the neutral result used when the
parallel oracle call set fails. -/
def fallbackAnalysis (messages : List ChatMessage) : ChatAnalysisResult :=
  { patterns := [],
    overallSentiment := 0,
    activityLevel := ((min 10 messages.length : ℕ) : ℚ),
    needsAttention := false,
    recommendations := ["AI analysis unavailable - manual review recommended"] }

/-- `Array.slice(-n)`: the last `n` elements. -/
def takeLast (n : ℕ) (l : List α) : List α := l.drop (l.length - n)

/-- `AIPatternAnalyzer.analyzeChat`: an empty batch returns the fixed
quiet-chat result without touching state or oracle; otherwise prune and
update the tracking state, issue the five analysis queries, and either
assemble the full result (storing the new patterns in the trend window) or,
when any query's promise rejected or a parsed non-array reaches a `for...of`,
fall back to the neutral analysis. -/
def analyzeChat (oracle : Oracle) (st : AnalyzerState) (now : Int)
    (messages : List ChatMessage) : ChatAnalysisResult × AnalyzerState :=
  if messages.isEmpty then
    ({ patterns := [], overallSentiment := 0, activityLevel := 0,
       needsAttention := false,
       recommendations := ["No recent chat activity"] }, st)
  else
    let st1 := updateUserTracking (cleanupOldData st now) messages
    let messageTexts := messages.map (fun m => m.username ++ ": " ++ m.content)
    let userCounts := getUserMessageCounts st1 now
    let uniqueUsers := ((messages.map (fun m => m.username)).eraseDups).length
    match analyzeToxicity oracle messageTexts,
          analyzeSpam oracle messageTexts userCounts,
          analyzeEngagement oracle messageTexts,
          analyzeSentiment oracle messageTexts,
          analyzeActivity oracle messageTexts "5 minutes" uniqueUsers with
    | .ok (some toxicityResults), .ok (some spamResults),
      .ok (some engagementResults), .ok sentimentResult, .ok activityResult =>
      let patterns :=
        convertToPatterns messages toxicityResults spamResults engagementResults now
      let needsAttention := determineAttentionNeeded patterns
      let recommendations :=
        generateAIRecommendations patterns sentimentResult activityResult
      let st2 := { st1 with
        recentPatterns := takeLast 50 (st1.recentPatterns ++ patterns) }
      ({ patterns := patterns,
         overallSentiment := sentimentResult.overallSentiment,
         activityLevel := activityResult.activityLevel,
         needsAttention := needsAttention,
         recommendations := recommendations }, st2)
    | _, _, _, _, _ => (fallbackAnalysis messages, st1)

/-! ## Monitor (autonomous-monitor.ts) -/

/-- The envelope returned by the injected MCP executor; only the `success`
flag is read by the monitor, and a thrown executor is a separate outcome. -/
inductive ExecOutcome where
  | res (success : Bool)
  | exn
deriving DecidableEq

/-- The injected action executor. -/
abbrev ToolExecutor := String → Params → ExecOutcome

/-- `AutonomousMonitor.executeDecisions`: run decisions strictly in order;
a successful execution is appended to the `executed` list and recorded in the
feedback store, a `success=false` result or a throw is skipped and the loop
continues.  Result: `(executed, feedback store, persistence log)`. -/
def executeDecisions (exec : ToolExecutor) (store log : List FeedbackEntry) :
    List ActionDecision → List ActionDecision × List FeedbackEntry × List FeedbackEntry
  | [] => ([], store, log)
  | d :: rest =>
    match exec d.action d.parameters with
    | .res true =>
      let (store', log') := recordAction store log d
      let (executed, s, l) := executeDecisions exec store' log' rest
      (d :: executed, s, l)
    | _ => executeDecisions exec store log rest

/-- The significance filter of `AutonomousMonitor.monitoringLoop`:
`p.confidence >= 0.6 && (p.severity >= 5 || analysis.needsAttention)`. -/
def significantPatterns (analysis : ChatAnalysisResult) : List ChatPattern :=
  analysis.patterns.filter (fun p =>
    decide (Rat.divInt 6 10 ≤ p.confidence) &&
    (decide (5 ≤ p.severity) || analysis.needsAttention))

/-- The triple returned by `AutonomousMonitor.forceAnalysis`. -/
structure ForceAnalysisResult where
  patterns : List ChatPattern
  decisions : List ActionDecision
  executed : List ActionDecision
deriving DecidableEq

/-- `AutonomousMonitor.forceAnalysis`: run the full pipeline on the current
message window, bypassing the significance filter; also returns the updated
analyzer state, cooldown ledger, feedback store and log. -/
def forceAnalysis (oracle : Oracle) (exec : ToolExecutor)
    (config : AutonomousConfig) (ast : AnalyzerState) (cooldowns : CooldownMap)
    (store log : List FeedbackEntry) (recentMessages : List ChatMessage)
    (now : Int) :
    ForceAnalysisResult × AnalyzerState × CooldownMap ×
      List FeedbackEntry × List FeedbackEntry :=
  let (analysis, ast') := analyzeChat oracle ast now recentMessages
  let (decisions, cooldowns') := makeDecisions oracle config cooldowns now analysis
  let (executed, store', log') := executeDecisions exec store log decisions
  (⟨analysis.patterns, decisions, executed⟩, ast', cooldowns', store', log')

/-! ## Theorems -/

/-- C9: calling `analyzeChat` on an empty message list returns exactly the
fixed quiet-chat result — empty patterns, sentiment 0, activity level 0, no
attention needed, the single recommendation "No recent chat activity" — with
the analyzer state untouched.  The equation holds for every oracle with a
right-hand side that does not mention the oracle, so the injected analysis
function is never consulted on this path. -/
theorem analyzeChat_emptyBatch (oracle : Oracle) (st : AnalyzerState) (now : Int) :
    analyzeChat oracle st now [] =
      ({ patterns := [], overallSentiment := 0, activityLevel := 0,
         needsAttention := false,
         recommendations := ["No recent chat activity"] }, st) := rfl

/-- Whether the injected executor reports a successful execution for a
decision (anything other than `{success: true}` — including a throw — is a
failure). -/
def successfulExecution (exec : ToolExecutor) (d : ActionDecision) : Bool :=
  match exec d.action d.parameters with
  | .res true => true
  | _ => false

/-- C8: a decision whose execution fails (the executor returns
`success=false` or throws) is excluded from both the executed list (which the
monitoring loop feeds into `recentActions`) and the feedback store; only
successful executions are recorded, the loop continues past failures, and
order is preserved. -/
theorem executeDecisions_successOnly (exec : ToolExecutor)
    (store log : List FeedbackEntry) (ds : List ActionDecision) :
    executeDecisions exec store log ds =
      (ds.filter (successfulExecution exec),
       store ++ (ds.filter (successfulExecution exec)).map
         (fun d => ⟨d.timestamp, d, none, none⟩),
       log ++ (ds.filter (successfulExecution exec)).map
         (fun d => ⟨d.timestamp, d, none, none⟩)) := by
  induction ds generalizing store log with
  | nil => simp [executeDecisions]
  | cons d rest ih =>
    rw [executeDecisions]
    rcases h : exec d.action d.parameters with b | _
    · rcases b with _ | _
      · simp [List.filter_cons, successfulExecution, h, ih]
      · simp [List.filter_cons, successfulExecution, h, recordAction, ih]
    · simp [List.filter_cons, successfulExecution, h, ih]

/-- An entry that `calculateSuccessMetrics` counts as a success: it carries
user feedback and passes the rating-or-effective test. -/
def successfulEntry (e : FeedbackEntry) : Bool :=
  e.userFeedback.isSome && ratedOrEffective e

/-- Modelled from the spec: the success rate the specification describes —
every in-window entry passing `(rating≥3) OR (outcome.effective==true)`
counts, whether or not it carries user feedback, over `max(1, totalEntries)`
(for comparison with the implementation). -/
def specSuccessRate (store : List FeedbackEntry) (now : Int) : ℚ :=
  Rat.divInt ((getRecentFeedback store now 168).filter ratedOrEffective).length
    (max 1 (getRecentFeedback store now 168).length : ℕ)

/-- C1 (amended): over the trailing 7-day window, `successRate` equals the
number of entries that carry user feedback and satisfy `(rating≥3) OR
(outcome.effective==true)`, divided by `max(1, allEntriesInWindow)`; entries
without feedback still count in the denominator, but an entry without
feedback is never counted as a success, even when its outcome is
effective. -/
theorem calculateSuccessMetrics_windowRate (store : List FeedbackEntry) (now : Int) :
    (calculateSuccessMetrics store now).successRate =
      Rat.divInt ((getRecentFeedback store now 168).filter successfulEntry).length
        (max 1 (getRecentFeedback store now 168).length : ℕ) := by
  have h : ((getRecentFeedback store now 168).filter
        (fun e => e.userFeedback.isSome)).filter ratedOrEffective =
      (getRecentFeedback store now 168).filter successfulEntry := by
    rw [List.filter_filter]
    exact List.filter_congr (fun e _ => by
      simp [successfulEntry, Bool.and_comm])
  simp only [calculateSuccessMetrics, h]

/-- The concrete store refuting the specification's success formula: a single
in-window entry with an effective outcome but no user feedback. -/
def effectiveNoFeedbackEntry : FeedbackEntry :=
  { timestamp := 0,
    actionTaken := ⟨"sendMessageToChat", [], "greeting", 1, [], 0⟩,
    userFeedback := none,
    outcome := some ⟨true, none, none⟩ }

/-- C1 (counterexample): on a store holding one entry whose outcome is
effective but which carries no user feedback, the implementation reports a
success rate of 0 while the claimed formula — success iff `(rating≥3) OR
(outcome.effective==true)` over all in-window entries — gives 1. -/
theorem calculateSuccessMetrics_spec_counterexample :
    (calculateSuccessMetrics [effectiveNoFeedbackEntry] 0).successRate = 0 ∧
    specSuccessRate [effectiveNoFeedbackEntry] 0 = 1 ∧
    (calculateSuccessMetrics [effectiveNoFeedbackEntry] 0).successRate ≠
      specSuccessRate [effectiveNoFeedbackEntry] 0 := by decide

/-- With no entry matching, the find-and-update core reports no match. -/
theorem updateFirstEntry_eq_none (p : FeedbackEntry → Bool)
    (f : FeedbackEntry → FeedbackEntry) (l : List FeedbackEntry)
    (h : ∀ x ∈ l, p x = false) : updateFirstEntry p f l = none := by
  induction l with
  | nil => rfl
  | cons e rest ih =>
    simp only [updateFirstEntry, h e (List.mem_cons_self e rest)]
    simp [ih (fun x hx => h x (List.mem_cons_of_mem e hx))]

/-- The find-and-update core updates exactly the first matching entry. -/
theorem updateFirstEntry_first (p : FeedbackEntry → Bool)
    (f : FeedbackEntry → FeedbackEntry) (pre : List FeedbackEntry)
    (e : FeedbackEntry) (post : List FeedbackEntry)
    (hpre : ∀ x ∈ pre, p x = false) (he : p e = true) :
    updateFirstEntry p f (pre ++ e :: post) = some (f e, pre ++ f e :: post) := by
  induction pre with
  | nil => simp [updateFirstEntry, he]
  | cons a t ih =>
    simp only [List.cons_append, updateFirstEntry,
      hpre a (List.mem_cons_self a t)]
    simp [ih (fun x hx => hpre x (List.mem_cons_of_mem a hx))]

/-- C4 (amended): `addUserFeedback` and `recordOutcome` return `false` and
leave the store (and log) unchanged when no entry lies strictly within 60
seconds of the target timestamp; when some entry does, they attach the
feedback / outcome to the first such entry in insertion order (not
necessarily the nearest) and return `true`, and that entry thereafter carries
the attached value. -/
theorem feedbackMatching_strictFirstMatch (store log : List FeedbackEntry)
    (ts : Int) (rating : ℕ) (comment : Option String) (source : String)
    (effective : Bool) (chatResponse : Option String)
    (sideEffects : Option (List String)) :
    ((∀ x ∈ store, withinOneMinute ts x = false) →
      addUserFeedback store log ts rating comment source = (false, store, log) ∧
      recordOutcome store log ts effective chatResponse sideEffects =
        (false, store, log)) ∧
    (∀ pre e post, store = pre ++ e :: post →
      (∀ x ∈ pre, withinOneMinute ts x = false) →
      withinOneMinute ts e = true →
      (addUserFeedback store log ts rating comment source).1 = true ∧
      (addUserFeedback store log ts rating comment source).2.1 =
        pre ++ { e with userFeedback := some ⟨rating, comment, source⟩ } :: post ∧
      (recordOutcome store log ts effective chatResponse sideEffects).1 = true ∧
      (recordOutcome store log ts effective chatResponse sideEffects).2.1 =
        pre ++ { e with outcome := some ⟨effective, chatResponse, sideEffects⟩ } :: post) := by
  constructor
  · intro h
    rw [addUserFeedback, recordOutcome,
      updateFirstEntry_eq_none _ _ _ h, updateFirstEntry_eq_none _ _ _ h]
    exact ⟨rfl, rfl⟩
  · intro pre e post hstore hpre he
    subst hstore
    rw [addUserFeedback, recordOutcome,
      updateFirstEntry_first _ _ _ _ _ hpre he,
      updateFirstEntry_first _ _ _ _ _ hpre he]
    exact ⟨rfl, rfl, rfl, rfl⟩

/-- A feedback entry fixture at the given timestamp with no feedback
attached. -/
def bareEntry (t : Int) : FeedbackEntry :=
  { timestamp := t,
    actionTaken := ⟨"timeoutUser", [], "moderation", 1, [], t⟩,
    userFeedback := none,
    outcome := none }

/-- C4 (counterexample): (a) for an entry exactly 60 seconds away — within
the claimed ≤60s window — `addUserFeedback` returns `false` (the source test
is strict `< 60000` ms); (b) with two entries both strictly within 60s, the
value attaches to the first entry in insertion order (50s away), not to the
nearest one (10s away). -/
theorem feedbackMatching_nearest_counterexample :
    ((bareEntry 0).timestamp - 60000).natAbs ≤ 60000 ∧
    (addUserFeedback [bareEntry 0] [] 60000 5 none "chat").1 = false ∧
    (addUserFeedback [bareEntry 0] [] 60000 5 none "chat").2.1 = [bareEntry 0] ∧
    ((bareEntry 10000).timestamp - 0).natAbs < ((bareEntry 50000).timestamp - 0).natAbs ∧
    (addUserFeedback [bareEntry 50000, bareEntry 10000] [] 0 5 none "chat").2.1 =
      [{ bareEntry 50000 with userFeedback := some ⟨5, none, "chat"⟩ },
       bareEntry 10000] := by decide

/-- C3 (amended): a later `addUserFeedback` call matching an entry replaces
that entry's in-memory `userFeedback` with the new value — the previously
attached value is no longer present in the store — while persistence is
append-only: the prior log is preserved as a prefix and a single updated
snapshot is appended (entries are never rewritten in place on disk). -/
theorem addUserFeedback_replace_append (store log : List FeedbackEntry)
    (ts : Int) (rating : ℕ) (comment : Option String) (source : String)
    (pre : List FeedbackEntry) (e : FeedbackEntry) (post : List FeedbackEntry)
    (hstore : store = pre ++ e :: post)
    (hpre : ∀ x ∈ pre, withinOneMinute ts x = false)
    (he : withinOneMinute ts e = true) :
    (addUserFeedback store log ts rating comment source).2.1 =
      pre ++ { e with userFeedback := some ⟨rating, comment, source⟩ } :: post ∧
    (addUserFeedback store log ts rating comment source).2.2 =
      log ++ [{ e with userFeedback := some ⟨rating, comment, source⟩ }] := by
  subst hstore
  rw [addUserFeedback, updateFirstEntry_first _ _ _ _ _ hpre he]
  exact ⟨rfl, rfl⟩

/-- A feedback entry fixture that already carries user feedback with the
given rating. -/
def ratedEntry (r : ℕ) : FeedbackEntry :=
  { timestamp := 0,
    actionTaken := ⟨"timeoutUser", [], "moderation", 1, [], 0⟩,
    userFeedback := some ⟨r, none, "chat"⟩,
    outcome := none }

/-- C3 (counterexample): an entry already carrying a rating of 5 is matched
by a later `addUserFeedback` call with rating 1, after which no entry of the
store carries the original feedback any more — the previously attached
`userFeedback` was silently overwritten. -/
theorem addUserFeedback_overwrite_counterexample :
    (ratedEntry 5).userFeedback = some ⟨5, none, "chat"⟩ ∧
    (addUserFeedback [ratedEntry 5] [] 0 1 none "chat").1 = true ∧
    (addUserFeedback [ratedEntry 5] [] 0 1 none "chat").2.1 =
      [{ ratedEntry 5 with userFeedback := some ⟨1, none, "chat"⟩ }] ∧
    ∀ x ∈ (addUserFeedback [ratedEntry 5] [] 0 1 none "chat").2.1,
      x.userFeedback ≠ some ⟨5, none, "chat"⟩ := by decide

/-- C3 (witness): the amended replacement-and-append behaviour at a concrete
store: the matched entry's feedback becomes the new rating 1 and the log gains
exactly the one updated snapshot. -/
theorem addUserFeedback_replace_append_witness :
    (addUserFeedback [ratedEntry 5] [] 0 1 none "chat").2.1 =
      [{ ratedEntry 5 with userFeedback := some ⟨1, none, "chat"⟩ }] ∧
    (addUserFeedback [ratedEntry 5] [] 0 1 none "chat").2.2 =
      [{ ratedEntry 5 with userFeedback := some ⟨1, none, "chat"⟩ }] :=
  addUserFeedback_replace_append [ratedEntry 5] [] 0 1 none "chat"
    [] (ratedEntry 5) [] rfl (by decide) (by decide)

/-- C4 (witness): the amended matching behaviour at concrete stores: an entry
70 seconds away yields `false` with the store unchanged, and an entry 30
seconds away yields `true` with the feedback attached. -/
theorem feedbackMatching_strictFirstMatch_witness :
    (addUserFeedback [bareEntry 100000] [] 30000 4 none "manual" =
      (false, [bareEntry 100000], []) ∧
     recordOutcome [bareEntry 100000] [] 30000 true none none =
      (false, [bareEntry 100000], [])) ∧
    ((addUserFeedback [bareEntry 0] [] 30000 4 none "manual").1 = true ∧
     (addUserFeedback [bareEntry 0] [] 30000 4 none "manual").2.1 =
      [{ bareEntry 0 with userFeedback := some ⟨4, none, "manual"⟩ }] ∧
     (recordOutcome [bareEntry 0] [] 30000 true none none).1 = true ∧
     (recordOutcome [bareEntry 0] [] 30000 true none none).2.1 =
      [{ bareEntry 0 with outcome := some ⟨true, none, none⟩ }]) :=
  ⟨(feedbackMatching_strictFirstMatch [bareEntry 100000] [] 30000 4 none
      "manual" true none none).1 (by decide),
   (feedbackMatching_strictFirstMatch [bareEntry 0] [] 30000 4 none
      "manual" true none none).2 [] (bareEntry 0) [] rfl (by decide) (by decide)⟩

/-- Membership in the assembled recommendation list carries over to
`generateRecommendations` (the all-good placeholder only appears when the
list is empty). -/
theorem mem_generateRecommendations (insights : LearningInsights)
    (r : Recommendation)
    (hr : r ∈ actionRecommendations insights ++ patternRecommendations insights ++
      sampleSizeRecommendations insights) :
    r ∈ generateRecommendations insights := by
  rw [generateRecommendations]
  split
  next h =>
    rw [List.isEmpty_iff] at h
    rw [h] at hr
    exact absurd hr (List.not_mem_nil r)
  next h => exact hr

/-- C5 (amended): `generateLearningInsights` emits a reduce-frequency
recommendation for every action with at least 5 samples whose average rating
is below 2.5, a parameter-review recommendation for every action with at
least 5 samples whose effectiveness rate is below 0.3, a threshold-review
recommendation for every pattern bucket with success rate below 0.4 and at
least 3 samples, and an insufficient-data recommendation whenever total
samples are below 10; actions with fewer than 5 samples are skipped
entirely. -/
theorem generateRecommendations_thresholds (store : List FeedbackEntry) (now : Int) :
    (∀ a d, (a, d) ∈ (analyzeFeedbackPatterns store now).actionPerformance →
      5 ≤ d.sampleSize → d.averageRating < Rat.divInt 5 2 →
      Recommendation.reduceFrequency a d.averageRating ∈
        generateLearningInsights store now) ∧
    (∀ a d, (a, d) ∈ (analyzeFeedbackPatterns store now).actionPerformance →
      5 ≤ d.sampleSize → d.effectivenessRate < Rat.divInt 3 10 →
      Recommendation.reviewParameters a d.effectivenessRate ∈
        generateLearningInsights store now) ∧
    (∀ k t s, (k, (t, s)) ∈ (analyzeFeedbackPatterns store now).patternSuccessRates →
      3 ≤ t → Rat.divInt (s : Int) (t : Int) < Rat.divInt 2 5 →
      Recommendation.adjustThresholds k (Rat.divInt (s : Int) (t : Int)) ∈
        generateLearningInsights store now) ∧
    ((analyzeFeedbackPatterns store now).totalSamples < 10 →
      Recommendation.insufficientData ((analyzeFeedbackPatterns store now).totalSamples) ∈
        generateLearningInsights store now) := by
  refine ⟨?_, ?_, ?_, ?_⟩
  · intro a d hmem hsz hlt
    refine mem_generateRecommendations _ _
      (List.mem_append_left _ (List.mem_append_left _ ?_))
    refine List.mem_flatMap.mpr ⟨(a, d), hmem, ?_⟩
    simp [Nat.not_lt.mpr hsz, hlt]
  · intro a d hmem hsz hlt
    refine mem_generateRecommendations _ _
      (List.mem_append_left _ (List.mem_append_left _ ?_))
    refine List.mem_flatMap.mpr ⟨(a, d), hmem, ?_⟩
    simp [Nat.not_lt.mpr hsz, hlt]
  · intro k t s hmem hsz hlt
    refine mem_generateRecommendations _ _
      (List.mem_append_left _ (List.mem_append_right _ ?_))
    refine List.mem_flatMap.mpr ⟨(k, (t, s)), hmem, ?_⟩
    rw [if_neg (Nat.not_lt.mpr hsz), if_pos hlt]
    exact List.mem_singleton.mpr rfl
  · intro hlt
    refine mem_generateRecommendations _ _ (List.mem_append_right _ ?_)
    simp [sampleSizeRecommendations, hlt]

/-- A feedback-entry fixture rated 1/5 for the message tool, optionally
carrying one spam pattern of severity 4. -/
def lowRatedEntry (t : Int) (withPattern : Bool) : FeedbackEntry :=
  { timestamp := t,
    actionTaken :=
      ⟨"sendMessageToChat", [],
       "engagement",
       1,
       if withPattern then [⟨"spam", 4, 1, ["u"], ["m"], 0, none⟩] else [],
       t⟩,
    userFeedback := some ⟨1, none, "chat"⟩,
    outcome := none }

/-- The store exercising every amended C5 threshold: five rating-1 samples of
one action (average rating 1, effectiveness rate 0), three of them carrying a
spam-severity-4 pattern (bucket "spam-2" at success rate 0), five total
samples. -/
def thresholdStore : List FeedbackEntry :=
  [lowRatedEntry 0 true, lowRatedEntry 1000 true, lowRatedEntry 2000 true,
   lowRatedEntry 3000 false, lowRatedEntry 4000 false]

/-- C5 (witness): on `thresholdStore` all four recommendation kinds fire. -/
theorem generateRecommendations_thresholds_witness :
    Recommendation.reduceFrequency "sendMessageToChat" 1 ∈
      generateLearningInsights thresholdStore 0 ∧
    Recommendation.reviewParameters "sendMessageToChat" 0 ∈
      generateLearningInsights thresholdStore 0 ∧
    Recommendation.adjustThresholds "spam-2" (Rat.divInt 0 3) ∈
      generateLearningInsights thresholdStore 0 ∧
    Recommendation.insufficientData 5 ∈
      generateLearningInsights thresholdStore 0 :=
  ⟨(generateRecommendations_thresholds thresholdStore 0).1
      "sendMessageToChat" ⟨1, 0, 5⟩ (by decide) (by decide) (by decide),
   (generateRecommendations_thresholds thresholdStore 0).2.1
      "sendMessageToChat" ⟨1, 0, 5⟩ (by decide) (by decide) (by decide),
   (generateRecommendations_thresholds thresholdStore 0).2.2.1
      "spam-2" 3 0 (by decide) (by decide) (by decide),
   (generateRecommendations_thresholds thresholdStore 0).2.2.2 (by decide)⟩

/-- C5 (counterexample): with only two rating-1 samples of an action, its
average rating 1 is below 2.5 and its effectiveness rate 0 is below 0.3, yet
— contrary to the claim's unconditional "for every action" — neither a
reduce-frequency nor a parameter-review recommendation is emitted, because
actions with fewer than 5 samples are skipped. -/
theorem generateRecommendations_counterexample :
    ("sendMessageToChat", (⟨1, 0, 2⟩ : ActionPerf)) ∈
      (analyzeFeedbackPatterns [lowRatedEntry 0 false, lowRatedEntry 1000 false] 0).actionPerformance ∧
    (1 : ℚ) < Rat.divInt 5 2 ∧
    (0 : ℚ) < Rat.divInt 3 10 ∧
    Recommendation.reduceFrequency "sendMessageToChat" 1 ∉
      generateLearningInsights [lowRatedEntry 0 false, lowRatedEntry 1000 false] 0 ∧
    Recommendation.reviewParameters "sendMessageToChat" 0 ∉
      generateLearningInsights [lowRatedEntry 0 false, lowRatedEntry 1000 false] 0 := by
  decide

/-- The per-pattern qualification test of the fallback rules, as the amended
claim states it: confidence at least 0.7 and either a toxicity pattern of
severity ≥ 7 with toxicity detection enabled, or a spam pattern of severity
≥ 6 with spam detection enabled. -/
def fallbackQualifies (config : AutonomousConfig) (p : ChatPattern) : Bool :=
  decide (Rat.divInt 7 10 ≤ p.confidence) &&
  ((decide (p.type = "toxicity") && decide ((7 : ℚ) ≤ p.severity) &&
      config.toxicityDetectionEnabled) ||
   (decide (p.type = "spam") && decide ((6 : ℚ) ≤ p.severity) &&
      config.spamDetectionEnabled))

/-- The single decision the amended claim expects for a qualifying pattern:
the configured default toxicity action (ban or timeout) for toxicity, a
timeout for spam, fixed reason text and confidence 0.6. -/
def fallbackDecisionFor (config : AutonomousConfig) (now : Int)
    (p : ChatPattern) : ActionDecision :=
  if p.type = "toxicity" then
    { action := if config.toxicityDetectionAction = "ban" then "banUser"
                else "timeoutUser",
      parameters := [("usernameOrDescriptor", .str (jsOrString p.users.head? "unknown")),
                     ("reason", .str "Toxic behavior detected")],
      reason := "Fallback action for high toxicity (" ++ toString p.severity ++ "/10)",
      confidence := Rat.divInt 3 5,
      patterns := [p],
      timestamp := now }
  else
    { action := "timeoutUser",
      parameters := [("usernameOrDescriptor", .str (jsOrString p.users.head? "unknown")),
                     ("reason", .str "Spam detected")],
      reason := "Fallback action for spam (" ++ toString p.severity ++ "/10)",
      confidence := Rat.divInt 3 5,
      patterns := [p],
      timestamp := now }

/-- C6 (amended): when the oracle decision call *throws*, the fallback
produces, in pattern order, exactly one decision per pattern that passes the
exact thresholds (confidence ≥ 0.7 and severity ≥ 7 for toxicity, severity
≥ 6 for spam) *and whose detection rule is enabled in the configuration* —
the configured default toxicity action or a timeout, with fixed reason text
and confidence 0.6 — and no decision for any other pattern.
`fallbackDecisions` takes no oracle argument, so the fallback never consults
the oracle for parameters.  When the oracle call returns but its output is
*unparseable*, the fixed rules do not fire at all: `makeDecisions` returns no
decisions (second conjunct). -/
theorem fallbackDecisions_fixedRules (config : AutonomousConfig) (now : Int)
    (ps : List ChatPattern) :
    (fallbackDecisions config now ps =
      (ps.filter (fallbackQualifies config)).map (fallbackDecisionFor config now)) ∧
    (∀ (oracle : Oracle) (st : CooldownMap) (analysis : ChatAnalysisResult),
      oracle (actionSelectionPrompt analysis (getAvailableTools config st now)
        config) = OracleAnswer.noparse →
      (makeDecisions oracle config st now analysis).1 = []) := by
  constructor
  case right =>
    intro oracle st analysis hnp
    rw [makeDecisions]
    by_cases he : (getAvailableTools config st now).isEmpty
    · rw [if_pos he]
    · rw [if_neg he, getAIDecisions, hnp]
  induction ps with
  | nil => rfl
  | cons p rest ih =>
    rw [fallbackDecisions, List.filter_cons]
    by_cases hconf : p.confidence < Rat.divInt 7 10
    · have hq : fallbackQualifies config p = false := by
        simp [fallbackQualifies, hconf, Rat.not_le.mpr hconf]
      rw [if_pos hconf, hq, ih]
      simp
    · rw [if_neg hconf]
      have hconf' : decide (Rat.divInt 7 10 ≤ p.confidence) = true := by
        simp [not_lt.mp hconf]
      by_cases htox : (decide (p.type = "toxicity") && decide ((7 : ℚ) ≤ p.severity) &&
          config.toxicityDetectionEnabled) = true
      · have htype : p.type = "toxicity" := by
          simp only [Bool.and_eq_true, decide_eq_true_eq] at htox
          exact htox.1.1
        have hq : fallbackQualifies config p = true := by
          simp [fallbackQualifies, hconf', htox]
        rw [if_pos htox, hq, ih]
        simp [fallbackDecisionFor, htype]
      · rw [if_neg htox]
        by_cases hspam : (decide (p.type = "spam") && decide ((6 : ℚ) ≤ p.severity) &&
            config.spamDetectionEnabled) = true
        · have htype : p.type = "spam" := by
            simp only [Bool.and_eq_true, decide_eq_true_eq] at hspam
            exact hspam.1.1
          have hq : fallbackQualifies config p = true := by
            simp [fallbackQualifies, hconf', hspam]
          rw [if_pos hspam, hq, ih]
          have htype' : ¬ p.type = "toxicity" := by
            rw [htype]; decide
          simp [fallbackDecisionFor, htype']
        · have hx : (decide (p.type = "toxicity") && decide ((7 : ℚ) ≤ p.severity) &&
              config.toxicityDetectionEnabled) = false := Bool.eq_false_iff.mpr htox
          have hs : (decide (p.type = "spam") && decide ((6 : ℚ) ≤ p.severity) &&
              config.spamDetectionEnabled) = false := Bool.eq_false_iff.mpr hspam
          have hq : fallbackQualifies config p = false := by
            simp [fallbackQualifies, hconf', hx, hs]
          rw [if_neg hspam, hq, ih]
          simp

/-- A configuration with the autonomous system and all rules enabled. -/
def allEnabledConfig : AutonomousConfig :=
  ⟨true, true, "timeout", true, "ban", true, true⟩

/-- The configuration refuting C6 as stated: toxicity detection disabled,
everything else enabled. -/
def toxicityDisabledConfig : AutonomousConfig :=
  ⟨true, true, "timeout", false, "timeout", true, true⟩

/-- The qualifying toxicity pattern of the spec's own scenario:
severity 8, confidence 0.8, user "u1". -/
def toxicPatternFixture : ChatPattern :=
  ⟨"toxicity", 8, Rat.divInt 4 5, ["u1"], ["bad message"], 0, none⟩

/-- An oracle whose every response is syntactically unparseable. -/
def noparseOracle : Oracle := fun _ => OracleAnswer.noparse

/-- C6 (counterexample): the claim fails twice over.  (a) A toxicity pattern
with confidence 0.8 ≥ 0.7 and severity 8 ≥ 7 — exactly the claim's
qualifying conditions — produces no fallback decision at all when toxicity
detection is disabled in the configuration, contradicting the claim's
"exactly one timeout/ban decision" for every such pattern.  (b) With the
rule enabled and the same qualifying pattern, an *unparseable* oracle
response — the claim's other trigger — also produces no decision:
`getAIDecisions` catches the parse failure and returns an empty list, never
reaching the fixed fallback rules. -/
theorem fallbackDecisions_disabled_counterexample :
    Rat.divInt 7 10 ≤ toxicPatternFixture.confidence ∧
    toxicPatternFixture.type = "toxicity" ∧
    (7 : ℚ) ≤ toxicPatternFixture.severity ∧
    fallbackDecisions toxicityDisabledConfig 0 [toxicPatternFixture] = [] ∧
    allEnabledConfig.toxicityDetectionEnabled = true ∧
    (makeDecisions noparseOracle allEnabledConfig [] 0
      ⟨[toxicPatternFixture], 0, 0, false, []⟩).1 = [] := by
  decide

/-- C6 (witness): the amended behaviour at concrete inputs: with all rules
enabled, the fallback maps the qualifying toxicity pattern to exactly one
configured-action decision, and an unparseable oracle response yields no
decisions at all. -/
theorem fallbackDecisions_fixedRules_witness :
    (fallbackDecisions allEnabledConfig 0 [toxicPatternFixture] =
      ([toxicPatternFixture].filter (fallbackQualifies allEnabledConfig)).map
        (fallbackDecisionFor allEnabledConfig 0)) ∧
    (makeDecisions noparseOracle allEnabledConfig [] 0
      ⟨[toxicPatternFixture], 0, 0, false, []⟩).1 = [] :=
  ⟨(fallbackDecisions_fixedRules allEnabledConfig 0 [toxicPatternFixture]).1,
   (fallbackDecisions_fixedRules allEnabledConfig 0 [toxicPatternFixture]).2
     noparseOracle [] ⟨[toxicPatternFixture], 0, 0, false, []⟩ rfl⟩

/-- C7: for a non-empty message batch, when every oracle call throws, the
whole parallel call set rejects and `analyzeChat` returns the neutral result
— empty patterns, sentiment 0, activity level `min(10, messageCount)`, no
attention flag — instead of surfacing the failure; consequently
`forceAnalysis` reports no patterns, produces no decisions (the decision
engine's own fallback sees an empty pattern list) and executes nothing.  All
functions involved return normally, so the failure never propagates to the
caller. -/
theorem analyzeChat_oracleFailure_neutral (oracle : Oracle)
    (hfail : ∀ s, oracle s = OracleAnswer.err)
    (messages : List ChatMessage) (hne : messages ≠ [])
    (st : AnalyzerState) (now : Int) (config : AutonomousConfig)
    (cooldowns : CooldownMap) (exec : ToolExecutor)
    (store log : List FeedbackEntry) :
    (analyzeChat oracle st now messages).1 =
      { patterns := [],
        overallSentiment := 0,
        activityLevel := ((min 10 messages.length : ℕ) : ℚ),
        needsAttention := false,
        recommendations := ["AI analysis unavailable - manual review recommended"] } ∧
    (forceAnalysis oracle exec config st cooldowns store log messages now).1.patterns = [] ∧
    (forceAnalysis oracle exec config st cooldowns store log messages now).1.decisions = [] ∧
    (forceAnalysis oracle exec config st cooldowns store log messages now).1.executed = [] := by
  have hempty : messages.isEmpty = false := by
    cases messages with
    | nil => exact absurd rfl hne
    | cons m rest => rfl
  have hchat : analyzeChat oracle st now messages =
      (fallbackAnalysis messages, updateUserTracking (cleanupOldData st now) messages) := by
    rw [analyzeChat, hempty]
    simp only [Bool.false_eq_true, if_false, analyzeToxicity, analyzeSpam,
      analyzeEngagement, analyzeSentiment, analyzeActivity, hfail]
  have hdec : ∀ a : ChatAnalysisResult, a.patterns = [] →
      (makeDecisions oracle config cooldowns now a).1 = [] := by
    intro a ha
    rw [makeDecisions]
    by_cases he : (getAvailableTools config cooldowns now).isEmpty
    · rw [if_pos he]
    · rw [if_neg he, getAIDecisions, hfail, ha]
      rfl
  have hfa : (forceAnalysis oracle exec config st cooldowns store log messages now).1 =
      ⟨(fallbackAnalysis messages).patterns, [], []⟩ := by
    rw [forceAnalysis, hchat]
    dsimp only
    rcases hmk : makeDecisions oracle config cooldowns now (fallbackAnalysis messages)
      with ⟨ds, cds⟩
    have h2 : ds = [] := by
      have h3 := hdec (fallbackAnalysis messages) rfl
      rw [hmk] at h3
      exact h3
    subst h2
    rfl
  refine ⟨by rw [hchat]; rfl, ?_, ?_, ?_⟩
  all_goals (rw [hfa]; try rfl)

/-- An oracle whose every call throws. -/
def throwingOracle : Oracle := fun _ => OracleAnswer.err

/-- A one-message batch fixture. -/
def singleMessage : List ChatMessage := [⟨"viewer", "hello", 0⟩]

/-- C7 (witness): with a concretely throwing oracle and one chat message, the
analysis degrades to the neutral result and `forceAnalysis` reports no
patterns, decisions or executions. -/
theorem analyzeChat_oracleFailure_neutral_witness :
    (∀ s, throwingOracle s = OracleAnswer.err) ∧
    (analyzeChat throwingOracle ⟨[], []⟩ 0 singleMessage).1 =
      { patterns := [],
        overallSentiment := 0,
        activityLevel := ((min 10 singleMessage.length : ℕ) : ℚ),
        needsAttention := false,
        recommendations := ["AI analysis unavailable - manual review recommended"] } ∧
    (forceAnalysis throwingOracle (fun _ _ => ExecOutcome.res true) allEnabledConfig
      ⟨[], []⟩ [] [] [] singleMessage 0).1.patterns = [] ∧
    (forceAnalysis throwingOracle (fun _ _ => ExecOutcome.res true) allEnabledConfig
      ⟨[], []⟩ [] [] [] singleMessage 0).1.decisions = [] ∧
    (forceAnalysis throwingOracle (fun _ _ => ExecOutcome.res true) allEnabledConfig
      ⟨[], []⟩ [] [] [] singleMessage 0).1.executed = [] :=
  ⟨fun _ => rfl,
   (analyzeChat_oracleFailure_neutral throwingOracle (fun _ => rfl) singleMessage
      (by decide) ⟨[], []⟩ 0 allEnabledConfig [] (fun _ _ => ExecOutcome.res true) [] []).1,
   (analyzeChat_oracleFailure_neutral throwingOracle (fun _ => rfl) singleMessage
      (by decide) ⟨[], []⟩ 0 allEnabledConfig [] (fun _ _ => ExecOutcome.res true) [] []).2.1,
   (analyzeChat_oracleFailure_neutral throwingOracle (fun _ => rfl) singleMessage
      (by decide) ⟨[], []⟩ 0 allEnabledConfig [] (fun _ _ => ExecOutcome.res true) [] []).2.2.1,
   (analyzeChat_oracleFailure_neutral throwingOracle (fun _ => rfl) singleMessage
      (by decide) ⟨[], []⟩ 0 allEnabledConfig [] (fun _ _ => ExecOutcome.res true) [] []).2.2.2⟩

/-- Any pattern emitted by a single score result carries the type and the
fixed confidence of its conversion site. -/
theorem scoreResultPattern_mem (messages : List ChatMessage) (now : Int)
    (minScore : ℚ) (ptype : String) (confidence : ℚ)
    (meta : ScoreResult → PatternMetadata) (r : ScoreResult) (p : ChatPattern)
    (hp : p ∈ scoreResultPattern messages now minScore ptype confidence meta r) :
    p.type = ptype ∧ p.confidence = confidence := by
  unfold scoreResultPattern at hp
  cases h1 : r.score with
  | none => rw [h1] at hp; cases r.messageIndex <;> simp at hp
  | some sc =>
    cases h2 : r.messageIndex with
    | none => rw [h1, h2] at hp; simp at hp
    | some mi =>
      rw [h1, h2] at hp
      dsimp only at hp
      split_ifs at hp with hmin hbound
      · rcases List.mem_singleton.mp hp with rfl
        exact ⟨rfl, rfl⟩
      · exact absurd hp (List.not_mem_nil p)
      · exact absurd hp (List.not_mem_nil p)

/-- C10: every pattern the analyzer emits has a confidence that is a fixed
constant determined solely by its type — 0.9 for toxicity, 0.8 for spam, 0.7
for "question" — hence at least 0.6, so the monitoring loop's significance
filter reduces to its severity/attention test on analyzer-produced patterns:
its confidence conjunct never excludes one. -/
theorem convertToPatterns_fixedConfidence (messages : List ChatMessage)
    (toxicityResults spamResults engagementResults : List ScoreResult)
    (now : Int) :
    (∀ p ∈ convertToPatterns messages toxicityResults spamResults
        engagementResults now,
      ((p.type = "toxicity" ∧ p.confidence = Rat.divInt 9 10) ∨
       (p.type = "spam" ∧ p.confidence = Rat.divInt 8 10) ∨
       (p.type = "question" ∧ p.confidence = Rat.divInt 7 10)) ∧
      Rat.divInt 6 10 ≤ p.confidence) ∧
    (∀ s al na recs,
      significantPatterns
          ⟨convertToPatterns messages toxicityResults spamResults
            engagementResults now, s, al, na, recs⟩ =
        (convertToPatterns messages toxicityResults spamResults
          engagementResults now).filter
          (fun p => decide ((5 : ℚ) ≤ p.severity) || na)) := by
  have main : ∀ p ∈ convertToPatterns messages toxicityResults spamResults
      engagementResults now,
      ((p.type = "toxicity" ∧ p.confidence = Rat.divInt 9 10) ∨
       (p.type = "spam" ∧ p.confidence = Rat.divInt 8 10) ∨
       (p.type = "question" ∧ p.confidence = Rat.divInt 7 10)) := by
    intro p hp
    rw [convertToPatterns] at hp
    rcases List.mem_append.mp hp with h | h
    · rcases List.mem_append.mp h with h' | h'
      · rcases List.mem_flatMap.mp h' with ⟨r, _, hm⟩
        exact Or.inl (scoreResultPattern_mem _ _ _ _ _ _ _ _ hm)
      · rcases List.mem_flatMap.mp h' with ⟨r, _, hm⟩
        exact Or.inr (Or.inl (scoreResultPattern_mem _ _ _ _ _ _ _ _ hm))
    · rcases List.mem_flatMap.mp h with ⟨r, _, hm⟩
      exact Or.inr (Or.inr (scoreResultPattern_mem _ _ _ _ _ _ _ _ hm))
  have hconf : ∀ p ∈ convertToPatterns messages toxicityResults spamResults
      engagementResults now, Rat.divInt 6 10 ≤ p.confidence := by
    intro p hp
    rcases main p hp with ⟨_, hc⟩ | ⟨_, hc⟩ | ⟨_, hc⟩ <;> rw [hc] <;> decide
  refine ⟨fun p hp => ⟨main p hp, hconf p hp⟩, ?_⟩
  intro s al na recs
  rw [significantPatterns]
  refine List.filter_congr ?_
  intro p hp
  have hc : decide (Rat.divInt 6 10 ≤ p.confidence) = true := by
    simpa using hconf p hp
  rw [hc, Bool.true_and]

/-- A toxicity score result fixture: message 1, score 5. -/
def toxicityScoreFixture : ScoreResult :=
  ⟨some 1, some 5, some "rude", some "timeout", none, some "viewer"⟩

/-- The pattern emitted for `toxicityScoreFixture` on `singleMessage`. -/
def emittedToxicityPattern : ChatPattern :=
  ⟨"toxicity", 5, Rat.divInt 9 10, ["viewer"], ["hello"], 0,
    some ⟨some "rude", some "timeout", none, true⟩⟩

/-- C10 (witness): at a concrete batch and score result, the emitted pattern
is a toxicity pattern of confidence 0.9, which is at least 0.6. -/
theorem convertToPatterns_fixedConfidence_witness :
    ((emittedToxicityPattern.type = "toxicity" ∧
      emittedToxicityPattern.confidence = Rat.divInt 9 10) ∨
     (emittedToxicityPattern.type = "spam" ∧
      emittedToxicityPattern.confidence = Rat.divInt 8 10) ∨
     (emittedToxicityPattern.type = "question" ∧
      emittedToxicityPattern.confidence = Rat.divInt 7 10)) ∧
    Rat.divInt 6 10 ≤ emittedToxicityPattern.confidence :=
  (convertToPatterns_fixedConfidence singleMessage [toxicityScoreFixture] [] [] 0).1
    emittedToxicityPattern (by decide)

/-- Setting a cooldown key makes it resolve to the new value. -/
theorem lookupCooldown_setCooldown_self (m : CooldownMap) (k : String) (v : Int) :
    lookupCooldown (setCooldown m k v) k = some v := by
  induction m with
  | nil => simp [setCooldown, lookupCooldown]
  | cons kv rest ih =>
    by_cases h : kv.1 = k
    · simp [setCooldown, h, lookupCooldown]
    · simp [setCooldown, h, lookupCooldown, ih]

/-- Setting a cooldown key leaves other keys unchanged. -/
theorem lookupCooldown_setCooldown_ne (m : CooldownMap) (k k2 : String) (v : Int)
    (h : k2 ≠ k) :
    lookupCooldown (setCooldown m k v) k2 = lookupCooldown m k2 := by
  induction m with
  | nil => simp [setCooldown, lookupCooldown, Ne.symm h]
  | cons kv rest ih =>
    by_cases hk : kv.1 = k
    · subst hk
      simp [setCooldown, lookupCooldown, Ne.symm h]
    · by_cases hk2 : kv.1 = k2
      · subst hk2
        simp [setCooldown, hk, lookupCooldown]
      · simp [setCooldown, hk, lookupCooldown, hk2, ih]

/-- Stamping the cooldown ledger resolves every stamped action to the stamp
time and leaves the rest of the ledger unchanged. -/
theorem lookupCooldown_updateCooldowns (ds : List ActionDecision)
    (st : CooldownMap) (t : Int) (k : String) :
    lookupCooldown (updateCooldowns st ds t) k =
      if k ∈ ds.map ActionDecision.action then some t
      else lookupCooldown st k := by
  induction ds generalizing st with
  | nil => simp [updateCooldowns]
  | cons d rest ih =>
    simp only [updateCooldowns, List.foldl_cons] at *
    rw [ih (setCooldown st d.action t)]
    by_cases hr : k ∈ rest.map ActionDecision.action
    · simp [hr]
    · by_cases hd : k = d.action
      · subst hd
        simp [hr, lookupCooldown_setCooldown_self]
      · simp [hr, hd, lookupCooldown_setCooldown_ne st d.action k t hd]

/-- Fallback decisions only ever propose `banUser` or `timeoutUser`. -/
theorem fallbackDecisions_action_cases (config : AutonomousConfig) (now : Int) :
    ∀ ps, ∀ d ∈ fallbackDecisions config now ps,
      d.action = "banUser" ∨ d.action = "timeoutUser" := by
  intro ps
  induction ps with
  | nil => intro d hd; simp [fallbackDecisions] at hd
  | cons p rest ih =>
    intro d hd
    rw [fallbackDecisions] at hd
    by_cases h1 : p.confidence < Rat.divInt 7 10
    · rw [if_pos h1] at hd
      exact ih d hd
    · rw [if_neg h1] at hd
      by_cases h2 : (decide (p.type = "toxicity") && decide ((7 : ℚ) ≤ p.severity) &&
          config.toxicityDetectionEnabled) = true
      · rw [if_pos h2] at hd
        rcases List.mem_cons.mp hd with rfl | hmem
        · dsimp only
          split_ifs with hb
          · exact Or.inl rfl
          · exact Or.inr rfl
        · exact ih d hmem
      · rw [if_neg h2] at hd
        by_cases h3 : (decide (p.type = "spam") && decide ((6 : ℚ) ≤ p.severity) &&
            config.spamDetectionEnabled) = true
        · rw [if_pos h3] at hd
          rcases List.mem_cons.mp hd with rfl | hmem
          · exact Or.inr rfl
          · exact ih d hmem
        · rw [if_neg h3] at hd
          exact ih d hd

/-- With `createTwitchPoll` stamped less than 15 minutes ago, the cooldown
filter removes it from the available-tools menu. -/
theorem createTwitchPoll_unavailable (config : AutonomousConfig)
    (st : CooldownMap) (now t1 : Int)
    (hlk : lookupCooldown st "createTwitchPoll" = some t1)
    (ht : now - t1 < 15 * 60 * 1000) :
    "createTwitchPoll" ∉ (getAvailableTools config st now).map MCPTool.name := by
  intro hmem
  rcases List.mem_map.mp hmem with ⟨tool, htool, hname⟩
  rw [getAvailableTools] at htool
  have h1 := List.mem_filter.mp htool
  have h2 := List.mem_filter.mp h1.1
  have hm := h2.1
  have hcool := h2.2
  simp only [AVAILABLE_MCP_TOOLS, List.mem_cons, List.not_mem_nil, or_false] at hm
  rcases hm with rfl | rfl | rfl | rfl | rfl | rfl | rfl | rfl
  all_goals first
    | exact absurd hname (by decide)
    | (rw [hlk] at hcool
       simp only [decide_eq_true_eq] at hcool
       omega)

/-- The number of `createTwitchPoll` decisions in a decision list. -/
def countPollDecisions (ds : List ActionDecision) : ℕ :=
  ds.countP (fun d => d.action == "createTwitchPoll")

/-- C2 (amended): across two `makeDecisions` calls less than 15 minutes
apart, at most one returned decision proposes `createTwitchPoll`, provided
the oracle proposes `createTwitchPoll` at most once per call and the second
call's decisions only name tools from the available-tools menu supplied for
that call.  The mechanism: a first-call poll decision stamps the cooldown
ledger, which removes `createTwitchPoll` (cooldown 15 minutes) from the
second call's menu; the code itself never filters the oracle's returned
proposals against the menu, so the menu-respecting proviso is necessary (see
the counterexample). -/
theorem makeDecisions_pollCooldown (oracle : Oracle) (config : AutonomousConfig)
    (st0 : CooldownMap) (t1 t2 : Int) (a1 a2 : ChatAnalysisResult)
    (htime : t2 - t1 < 15 * 60 * 1000)
    (h1 : countPollDecisions (makeDecisions oracle config st0 t1 a1).1 ≤ 1)
    (h2 : countPollDecisions (makeDecisions oracle config
        (makeDecisions oracle config st0 t1 a1).2 t2 a2).1 ≤ 1)
    (hmenu : ∀ d ∈ (makeDecisions oracle config
        (makeDecisions oracle config st0 t1 a1).2 t2 a2).1,
      d.action ∈ (getAvailableTools config (makeDecisions oracle config st0 t1 a1).2
        t2).map MCPTool.name) :
    countPollDecisions ((makeDecisions oracle config st0 t1 a1).1 ++
      (makeDecisions oracle config (makeDecisions oracle config st0 t1 a1).2
        t2 a2).1) ≤ 1 := by
  rw [countPollDecisions, List.countP_append]
  by_cases hpoll : ∃ d ∈ (makeDecisions oracle config st0 t1 a1).1,
      d.action = "createTwitchPoll"
  · have key : lookupCooldown (makeDecisions oracle config st0 t1 a1).2
        "createTwitchPoll" = some t1 := by
      rcases hpoll with ⟨d0, hd0, hact0⟩
      rw [makeDecisions] at hd0 ⊢
      by_cases he : (getAvailableTools config st0 t1).isEmpty
      · rw [if_pos he] at hd0
        exact absurd hd0 (List.not_mem_nil d0)
      · rw [if_neg he] at hd0 ⊢
        cases hA : getAIDecisions oracle config a1 (getAvailableTools config st0 t1) t1 with
        | error e =>
          rw [hA] at hd0
          dsimp only at hd0
          rcases fallbackDecisions_action_cases config t1 a1.patterns d0 hd0 with h | h
          · rw [h] at hact0
            exact absurd hact0 (by decide)
          · rw [h] at hact0
            exact absurd hact0 (by decide)
        | ok ds =>
          rw [hA] at hd0
          dsimp only at hd0 ⊢
          rw [lookupCooldown_updateCooldowns]
          rw [if_pos (List.mem_map.mpr ⟨d0, hd0, hact0⟩)]
    have hnone : ∀ d ∈ (makeDecisions oracle config
        (makeDecisions oracle config st0 t1 a1).2 t2 a2).1,
        ¬ d.action = "createTwitchPoll" := by
      intro d hd hcon
      exact createTwitchPoll_unavailable config _ t2 t1 key htime
        (hcon ▸ hmenu d hd)
    have hz : (makeDecisions oracle config
        (makeDecisions oracle config st0 t1 a1).2 t2 a2).1.countP
        (fun d => d.action == "createTwitchPoll") = 0 := by
      rw [List.countP_eq_zero]
      intro d hd
      simpa using hnone d hd
    rw [hz]
    simpa [countPollDecisions] using h1
  · have hz1 : (makeDecisions oracle config st0 t1 a1).1.countP
        (fun d => d.action == "createTwitchPoll") = 0 := by
      rw [List.countP_eq_zero]
      intro d hd hc
      exact hpoll ⟨d, hd, by simpa using hc⟩
    rw [hz1, Nat.zero_add]
    simpa [countPollDecisions] using h2

/-- A raw oracle proposal of a `createTwitchPoll` action. -/
def pollRawDecision : RawDecision :=
  ⟨some "createTwitchPoll", none, some "create an engagement poll", some 1, none⟩

/-- An oracle that proposes one `createTwitchPoll` decision on every call,
ignoring the available-tools menu in the prompt. -/
def pollHappyOracle : Oracle := fun _ => OracleAnswer.arr [pollRawDecision]

/-- An analysis result with no patterns. -/
def emptyAnalysis : ChatAnalysisResult := ⟨[], 0, 0, false, []⟩

/-- C2 (counterexample): with an injected oracle that always proposes
`createTwitchPoll`, two `makeDecisions` calls one minute apart both return a
`createTwitchPoll` decision — two across the window, not at most one.  The
second call's menu omits the cooled-down tool, but the code never checks the
oracle's returned proposals against the menu. -/
theorem makeDecisions_pollCooldown_counterexample :
    ((60000 : Int) - 0 < 15 * 60 * 1000) ∧
    countPollDecisions ((makeDecisions pollHappyOracle allEnabledConfig [] 0
        emptyAnalysis).1 ++
      (makeDecisions pollHappyOracle allEnabledConfig
        (makeDecisions pollHappyOracle allEnabledConfig [] 0 emptyAnalysis).2
        60000 emptyAnalysis).1) = 2 := by
  decide

/-- An oracle that honours the available-tools menu: it proposes
`createTwitchPoll` exactly when asked with the full menu (as in the first
call below) and otherwise returns an unparseable response. -/
def menuOracle : Oracle := fun s =>
  if s = actionSelectionPrompt emptyAnalysis
      (getAvailableTools allEnabledConfig [] 0) allEnabledConfig then
    OracleAnswer.arr [pollRawDecision]
  else
    OracleAnswer.noparse

set_option maxRecDepth 100000 in
/-- C2 (witness): with the menu-honouring oracle, the first call returns the
poll decision, the second call (one minute later, with `createTwitchPoll`
cooled down and absent from its menu) returns nothing, and the amended bound
holds with every hypothesis discharged concretely. -/
theorem makeDecisions_pollCooldown_witness :
    ((60000 : Int) - 0 < 15 * 60 * 1000) ∧
    countPollDecisions (makeDecisions menuOracle allEnabledConfig [] 0
      emptyAnalysis).1 = 1 ∧
    countPollDecisions (makeDecisions menuOracle allEnabledConfig
      (makeDecisions menuOracle allEnabledConfig [] 0 emptyAnalysis).2
      60000 emptyAnalysis).1 = 0 ∧
    countPollDecisions ((makeDecisions menuOracle allEnabledConfig [] 0
        emptyAnalysis).1 ++
      (makeDecisions menuOracle allEnabledConfig
        (makeDecisions menuOracle allEnabledConfig [] 0 emptyAnalysis).2
        60000 emptyAnalysis).1) ≤ 1 :=
  ⟨by decide, by decide, by decide,
   makeDecisions_pollCooldown menuOracle allEnabledConfig [] 0 60000
     emptyAnalysis emptyAnalysis (by decide) (by decide) (by decide)
     (by decide)⟩
